import Mathlib

/-!
Verification development for the Search–Fetch–Extract (SFE) pipeline of the
repository: the auto-search orchestrator (`auto_search_tool.py`), the
BrightData SERP client (`brightdata_client.py`), the search-query grammar
(`search_parser.py`), the smart content extractor
(`smart_content_extractor.py`) and the PDF token truncation
(`pdf_parser.py`).

Strings are modelled as `List Char` (Python `str`), dictionaries with
optional keys as structures with `Option` fields, and the asynchronous
collaborators (SERP HTTP calls, extraction HTTP calls) as oracle values
passed explicitly.  Python float token arithmetic `len/4.0` is modelled by
exact natural arithmetic: for nonnegative integers and the constant 4.0 the
float comparisons and `int(...)` conversions used by the source are exact.
-/

namespace SFE

/-- Convert a Lean string literal into the `List Char` model of Python text. -/
def str (s : String) : List Char := s.data

/-! ## Python string primitives -/

/-- Python whitespace characters stripped by `str.strip()` (ASCII subset;
the sources only ever strip ASCII whitespace). -/
def pyIsSpace (c : Char) : Bool :=
  c = ' ' || c = '\t' || c = '\n' || c = '\x0d' || c = '\x0b' || c = '\x0c'

/-- Python `s.strip()`: drop whitespace from both ends. -/
def pyStrip (s : List Char) : List Char :=
  ((s.dropWhile pyIsSpace).reverse.dropWhile pyIsSpace).reverse

/-- Truth test `bool(s)` for Python strings: non-empty. -/
def pyTruthy (s : List Char) : Bool := !s.isEmpty

/-- Does the pattern occur as a leading block of the text. -/
def startsWith : List Char → List Char → Bool
  | [], _ => true
  | _ :: _, [] => false
  | p :: ps, c :: cs => p = c && startsWith ps cs

/-- First occurrence of a pattern: returns the text before the occurrence and
the text after it (Python `s.find(pat)` combined with slicing). -/
def splitOnFirst (pat : List Char) : List Char → Option (List Char × List Char)
  | [] => if pat = [] then some ([], []) else none
  | c :: cs =>
    if startsWith pat (c :: cs) then some ([], (c :: cs).drop pat.length)
    else
      match splitOnFirst pat cs with
      | none => none
      | some (pre, post) => some (c :: pre, post)

/-- All start indices at which the pattern occurs in the text (ascending). -/
def occurrencesFrom (pat : List Char) : List Char → Nat → List Nat
  | [], i => if startsWith pat [] then [i] else []
  | c :: cs, i =>
    (if startsWith pat (c :: cs) then [i] else []) ++ occurrencesFrom pat cs (i + 1)

/-- Python `s.rfind(pat)`: highest index of an occurrence, `none` for -1. -/
def pyRfind (pat s : List Char) : Option Nat :=
  (occurrencesFrom pat s 0).getLast?

/-- Python `s.split(sep)` for a one-character separator: keeps empty pieces. -/
def splitOnChar (sep : Char) : List Char → List (List Char)
  | [] => [[]]
  | c :: cs =>
    if c = sep then [] :: splitOnChar sep cs
    else
      match splitOnChar sep cs with
      | [] => [[c]]
      | p :: ps => (c :: p) :: ps

/-! ## Query grammar (`search_parser.py`, and the tag handling in
`auto_search` of `auto_search_tool.py`)

The regex pattern is the literal one, r mark: <search>(.*?)</search> with
DOTALL.  `re.findall` on this pattern walks the text left to right: it takes
the first `<search>` that is followed by a `</search>`, captures lazily up to
the first following `</search>`, and continues after it.  `re.search`
returns just the first such capture.  (`auto_search` compiles the pattern
with IGNORECASE as well; we model exact-case tags, which agrees with the
source on every input whose tags are lowercase, as in all the claims.) -/

def openTag : List Char := str "<search>"
def closeTag : List Char := str "</search>"

/-- One step of the findall walk: the capture of the leftmost match together
with the remaining text after its `</search>`. -/
def nextTagCapture (s : List Char) : Option (List Char × List Char) :=
  match splitOnFirst openTag s with
  | none => none
  | some (_, rest) =>
    match splitOnFirst closeTag rest with
    | none => none
    | some (content, rest2) => some (content, rest2)

/-- Fueled findall walk; each successful step consumes at least the two tags,
so fuel `s.length + 1` always suffices. -/
def findTagsAux (fuel : Nat) (s : List Char) : List (List Char) :=
  match fuel with
  | 0 => []
  | fuel' + 1 =>
    match nextTagCapture s with
    | none => []
    | some (content, rest2) => content :: findTagsAux fuel' rest2

/-- `re.findall(r..., query, re.DOTALL)` for the search-tag pattern. -/
def findTags (s : List Char) : List (List Char) :=
  findTagsAux (s.length + 1) s

/-- The list comprehension shared by both parse branches:
strip each piece and keep the non-empty results. -/
def stripFilter (l : List (List Char)) : List (List Char) :=
  l.filterMap (fun q => if pyStrip q = [] then none else some (pyStrip q))

/-- `parse_search_queries` of `search_parser.py`. -/
def parse_search_queries (query : List Char) : List (List Char) :=
  let search_matches := findTags query
  if search_matches ≠ [] then
    stripFilter search_matches
  else if '|' ∈ query then
    stripFilter (splitOnChar '|' query)
  else
    [pyStrip query]

/-- `format_parallel_search` of `search_parser.py`. -/
def format_parallel_search (queries : List (List Char)) : List Char :=
  if queries.length = 1 then queries.headI
  else (queries.map (fun q => openTag ++ q ++ closeTag)).flatten

/-- `re.search(r..., query, re.IGNORECASE | re.DOTALL)` group 1 in
`auto_search` of `auto_search_tool.py`: the first tag pair's content. -/
def firstTagContent (s : List Char) : Option (List Char) :=
  match nextTagCapture s with
  | none => none
  | some (content, _) => some content

/-- The `search_tags` list computed at the top of `auto_search`
(`auto_search_tool.py`, `create_auto_search_tool`): take the first
`<search>` pair; split its stripped content on pipes when a pipe is present,
else use it whole; with no tag pair treat the raw query as the single tag. -/
def autoSearchTags (query : List Char) : List (List Char) :=
  match firstTagContent query with
  | some content =>
    let search_content := pyStrip content
    if '|' ∈ search_content then
      stripFilter (splitOnChar '|' search_content)
    else
      [search_content]
  | none => [query]

/-! ## SERP client (`brightdata_client.py`)

`_poll_async_result` polls the result endpoint up to `max_retries = 20`
times.  Before every attempt the elapsed wall time is compared against the
poll budget (`BRIGHTDATA_POLL_TIMEOUT`, default 30 s); strictly exceeding it
raises a timeout error.  Each attempt yields one of: HTTP 200 with the
payload, HTTP 202 (not ready), an `asyncio.TimeoutError` from the 5 s
per-poll timeout, or some other exception (any non-200/202 status is turned
into an exception by `raise_for_status` and lands in the generic handler).
Times are modelled in milliseconds. -/

/-- Wait (ms) slept after a 202 response at 0-based attempt `a`
(the progressive ladder at lines 340-351). -/
def waitAfter202 (a : Nat) : Nat :=
  if a = 0 then 2000
  else if a ≤ 2 then 1500
  else if a ≤ 5 then 2000
  else if a ≤ 9 then 3000
  else if a ≤ 11 then 4000
  else 5000

/-- Wait (ms) slept after an `asyncio.TimeoutError` at 0-based attempt `a`
(the abbreviated ladder at lines 362-368). -/
def waitAfterPollTimeout (a : Nat) : Nat :=
  if a = 0 then 2000
  else if a ≤ 2 then 1500
  else 2000

/-- What one poll attempt yields. -/
inductive PollEvent where
  | payload           -- HTTP 200, results decoded
  | notReady          -- HTTP 202
  | pollTimeout       -- asyncio.TimeoutError from the 5 s per-poll timeout
  | otherError        -- any other exception (incl. raise_for_status)
deriving DecidableEq

/-- How `_poll_async_result` ends. -/
inductive PollOutcome where
  | success           -- returned the payload
  | budgetTimeout     -- raised: total time over the budget (line 321)
  | pollTimeoutError  -- raised at the last attempt after a per-poll timeout
  | otherException    -- re-raised the last attempt's exception
  | retriesExhausted  -- raised after the loop (line 380)
deriving DecidableEq

/-- The poll loop of `_poll_async_result`.  `events a` is what attempt `a`
(0-based) yields, `elapsedAt a` the wall-clock ms elapsed when the budget is
checked before attempt `a`, `budget` the total budget in ms.  `rem` is the
number of loop iterations left (`max_retries - attempt`).  Returns the
outcome and the list of sleeps performed, in order. -/
def pollLoop (events : Nat → PollEvent) (elapsedAt : Nat → Nat) (budget : Nat) :
    Nat → Nat → PollOutcome × List Nat
  | _, 0 => (.retriesExhausted, [])
  | attempt, rem + 1 =>
    if budget < elapsedAt attempt then (.budgetTimeout, [])
    else
      match events attempt with
      | .payload => (.success, [])
      | .notReady =>
        let w := waitAfter202 attempt
        let r := pollLoop events elapsedAt budget (attempt + 1) rem
        (r.1, w :: r.2)
      | .pollTimeout =>
        if rem = 0 then (.pollTimeoutError, [])
        else
          let w := waitAfterPollTimeout attempt
          let r := pollLoop events elapsedAt budget (attempt + 1) rem
          (r.1, w :: r.2)
      | .otherError =>
        if rem = 0 then (.otherException, [])
        else
          let r := pollLoop events elapsedAt budget (attempt + 1) rem
          (r.1, 1000 :: r.2)

/-- `_poll_async_result` itself: 20 attempts starting at attempt 0. -/
def pollAsyncResult (events : Nat → PollEvent) (elapsedAt : Nat → Nat)
    (budget : Nat) : PollOutcome × List Nat :=
  pollLoop events elapsedAt budget 0 20

/-- One item of the provider's `organic` or `news` arrays
(a JSON object; every field may be missing). -/
structure SerpItem where
  link : Option (List Char) := none
  title : Option (List Char) := none
  description : Option (List Char) := none
  display_link : Option (List Char) := none
  date : Option (List Char) := none
  source : Option (List Char) := none

/-- One normalized result dict produced by `_process_serp_results`. -/
structure SerpResult where
  pos : Nat
  title : List Char := []
  url : List Char := []
  snippet : List Char := []
  site : Option (List Char) := none
  date : Option (List Char) := none
  source : Option (List Char) := none
  typeTag : Option (List Char) := none
deriving DecidableEq

/-- The provider response body as far as `_process_serp_results` reads it:
the `organic` array (`.get`, so missing means `[]`) and the optional `news`
array (guarded by a key test). -/
structure SerpBody where
  organic : List SerpItem := []
  news : Option (List SerpItem) := none

/-- The `for i, result in enumerate(organic_results)` loop: every item is
kept (a missing `link` just yields `url = ''`), `position` is the 1-based
provider index. -/
def processOrganic : List SerpItem → Nat → List SerpResult
  | [], _ => []
  | r :: rs, i =>
    { pos := i + 1
      title := r.title.getD []
      url := r.link.getD []
      snippet := r.description.getD []
      site := some (r.display_link.getD [])
      date := r.date } :: processOrganic rs (i + 1)

/-- The news loop: each news item is appended with
`position = len(processed_results) + 1`, so positions continue the organic
sequence, and a `type: news` tag. -/
def processNews : List SerpItem → Nat → List SerpResult
  | [], _ => []
  | n :: ns, sofar =>
    { pos := sofar + 1
      title := n.title.getD []
      url := n.link.getD []
      snippet := n.description.getD []
      source := some (n.source.getD [])
      date := some (n.date.getD [])
      typeTag := some (str "news") } :: processNews ns (sofar + 1)

/-- `_process_serp_results` of `brightdata_client.py`. -/
def processSerpResults (body : SerpBody) : List SerpResult :=
  let organicPart := processOrganic body.organic 0
  match body.news with
  | none => organicPart
  | some ns => organicPart ++ processNews ns organicPart.length

/-! ## Smart content extractor (`smart_content_extractor.py`)

`SmartContentExtractor.__init__` overwrites the `enable_failure_learning`
argument: line 40 sets `self.enable_failure_learning = False` ("NOTE:
failure_learning 功能已移除"), and no `failure_db` attribute is ever
created.  Every guard of the form
`if self.enable_failure_learning and self.failure_db ...` therefore
short-circuits to false.  The underlying `ContentExtractor.extract_content`
HTTP call is modelled as an oracle. -/

/-- The extractor state observable by `smart_extract_content`.
`confidence_threshold` (scaled by 100 to stay in `Nat`) is stored but never
read by the extraction path. -/
structure SmartExtractorState where
  enable_failure_learning : Bool
  confidence_threshold_pct : Nat

/-- `SmartContentExtractor.__init__`: whatever the caller passes,
failure learning is forced off (line 40). -/
def smartExtractorInit (_enable_failure_learning : Bool)
    (confidence_threshold_pct : Nat) : SmartExtractorState :=
  { enable_failure_learning := false
    confidence_threshold_pct := confidence_threshold_pct }

/-- `force_learn_failure` / the recording branches: guarded by
`self.enable_failure_learning and self.failure_db`, so with the forced-off
flag the state is returned unchanged. -/
def recordFailure (st : SmartExtractorState) (_url _failureType _msg : List Char) :
    SmartExtractorState :=
  if st.enable_failure_learning then st else st

/-- What the wrapped `ContentExtractor.extract_content` HTTP call does
(an oracle: the extractor either returns its result dict or raises). -/
inductive ExtractCall where
  | returned (success : Bool) (content : Option (List Char))
      (error : Option (List Char)) (method : Option (List Char))
      (is_truncated : Option Bool)
  | raised (msg : List Char)

/-- Result dict of `smart_extract_content` (the fields the claims read). -/
structure SmartExtractResult where
  success : Bool
  content : Option (List Char) := none
  method : Option (List Char) := none
  is_serp_fallback : Option Bool := none
  is_truncated : Option Bool := none
  error : Option (List Char) := none
  intelligent_extraction : Option Bool := none

/-- `_prepare_serp_content`: the formatted `(title, snippet, url)` view used
as SERP fallback content. -/
def prepareSerpContent (title snippet url : List Char) : List Char :=
  if title = [] ∧ snippet = [] then []
  else
    let parts₁ : List (List Char) :=
      if pyTruthy title then [str "# " ++ title] else []
    let parts₂ : List (List Char) :=
      if pyTruthy (pyStrip snippet) then [str "\n" ++ pyStrip snippet] else []
    let parts₃ : List (List Char) :=
      if pyTruthy url then [str "\n\n来源: " ++ url] else []
    let parts := parts₁ ++ parts₂ ++ parts₃ ++ [str "\n\n*注：此内容来源于搜索结果摘要*"]
    (parts.intersperse (str "\n")).flatten

/-- `smart_extract_content`: returns the result dict and whether the
underlying `extract_content` HTTP call was performed.  With failure
learning forced off, `should_skip` stays `False`, so the pre-extraction
skip branch is unreachable and the call always reaches
`super().extract_content(...)`. -/
def smartExtractContent (st : SmartExtractorState) (url snippet title : List Char)
    (fallback : Bool) (force_crawl : Bool) (call : ExtractCall) :
    SmartExtractResult × Bool :=
  let serp_content := prepareSerpContent title snippet url
  let should_skip :=
    if st.enable_failure_learning ∧ ¬force_crawl then false else false
  if should_skip then
    ({ success := true, content := some serp_content,
       method := some (str "serp_fallback"), is_serp_fallback := some true }, false)
  else
    match call with
    | .returned success content error method is_truncated =>
      if ¬success ∧ serp_content ≠ [] ∧ fallback then
        ({ success := true, content := some serp_content,
           method := some (str "serp_fallback_after_failure"),
           is_serp_fallback := some true,
           intelligent_extraction := some true }, true)
      else
        ({ success := success, content := content, method := method,
           is_truncated := is_truncated, error := error,
           intelligent_extraction := some true }, true)
    | .raised msg =>
      if serp_content ≠ [] ∧ fallback then
        ({ success := true, content := some serp_content,
           method := some (str "serp_fallback_after_exception"),
           is_serp_fallback := some true }, true)
      else
        ({ success := false, content := none, error := some msg }, true)

/-! ## Orchestrator (`auto_search_tool.py`)

`AutoSearchTool` is created with `enable_smart_extraction = True`, so
`_fetch_and_process` extracts through
`SmartContentExtractor.smart_extract_content` under an `asyncio.wait_for`.
The constructor fixes `char_to_token_ratio = 4.0`; `max_content_length`
defaults to 10000 and `max_content_tokens` to 3000.  For a natural length
`n`, the float test `n / 4.0 > T` holds exactly when `4 * T < n`, and
`int(n / 4.0) = n / 4` in natural division. -/

/-- The truncation marker appended by `_fetch_and_process`
(9 characters). -/
def ocMarker : List Char := str "\n\n[内容已截断]"

/-- The char/token capping step of `_fetch_and_process` (lines 422-436):
token cap first, then char cap, else keep the extractor's own flag.
Returns (content, is_truncated, estimated_tokens as stored by `int(...)`). -/
def capContent (L T : Nat) (content : List Char) (incoming : Bool) :
    List Char × Bool × Nat :=
  if 4 * T < content.length then
    (content.take (4 * T) ++ ocMarker, true, T)
  else if L < content.length then
    let c := content.take L ++ ocMarker
    (c, true, c.length / 4)
  else
    (content, incoming, content.length / 4)

/-- How one `_fetch_and_process` invocation's extraction goes: the
`asyncio.wait_for` times out, some other exception escapes, or
`smart_extract_content` completes with the given underlying HTTP call. -/
inductive FetchAttempt where
  | timedOut
  | raisedF (msg : List Char)
  | completed (call : ExtractCall)

/-- The dict returned by `_fetch_and_process`. -/
structure FetchDict where
  fetch_success : Bool
  content : Option (List Char) := none
  content_length : Option Nat := none
  estimated_tokens : Option Nat := none
  is_truncated : Option Bool := none
  extraction_method : Option (List Char) := none
  is_pdf : Option Bool := none
  fetch_error : Option (List Char) := none
  is_timeout : Option Bool := none
  is_serp_fallback : Option Bool := none
deriving DecidableEq

/-- One entry of `urls_to_fetch`. -/
structure UrlItem where
  url : List Char
  title : List Char := []
  snippet : List Char := []
  pos : Nat := 0
deriving DecidableEq

/-- `_fetch_and_process` for one URL item. -/
def fetchAndProcess (st : SmartExtractorState) (L T : Nat) (item : UrlItem)
    (attempt : FetchAttempt) : FetchDict :=
  match attempt with
  | .timedOut =>
    { fetch_success := false
      fetch_error := some (str "Content extraction timeout")
      content := some item.snippet
      is_timeout := some true }
  | .raisedF msg =>
    { fetch_success := false, fetch_error := some msg, content := none }
  | .completed call =>
    let er := (smartExtractContent st item.url item.snippet item.title true false call).1
    if er.success then
      let c0 := er.content.getD []
      let capped := capContent L T c0 (er.is_truncated.getD false)
      { fetch_success := true
        content := some capped.1
        content_length := some capped.1.length
        estimated_tokens := some capped.2.2
        is_truncated := some capped.2.1
        extraction_method := some (er.method.getD (str "unknown"))
        is_pdf := some (decide (er.method = some (str "pdf_parser")))
        is_serp_fallback := if er.is_serp_fallback = some true then some true else none }
    else
      { fetch_success := false
        fetch_error := some (er.error.getD (str "Unknown error"))
        content := none }

/-- One record of the `results` list of a response. -/
structure EnhancedRecord where
  url : List Char := []
  title : List Char := []
  snippet : List Char := []
  pos : Nat := 0
  search_index : Option Nat := none
  fetch_success : Bool := false
  fetch_reason : Option (List Char) := none
  content : Option (List Char) := none
  content_length : Option Nat := none
  estimated_tokens : Option Nat := none
  is_truncated : Option Bool := none
  extraction_method : Option (List Char) := none
  is_pdf : Option Bool := none
  fetch_error : Option (List Char) := none
  is_timeout : Option Bool := none
  is_serp_fallback : Option Bool := none
deriving DecidableEq

instance : Inhabited EnhancedRecord := ⟨{}⟩

/-- The KISS fill at lines 300-302: a missing content is replaced by the
snippet when the snippet is non-empty, defaulting the extraction method. -/
def kissFill (r : EnhancedRecord) : EnhancedRecord :=
  if r.content = none ∧ r.snippet ≠ [] then
    { r with
      content := some r.snippet
      extraction_method := some (r.extraction_method.getD (str "snippet_fallback")) }
  else r

/-- `{**item, **fetch_result}`: the merged enhanced record for one fetched
URL. -/
def mergeItemFetch (item : UrlItem) (d : FetchDict) : EnhancedRecord :=
  { url := item.url, title := item.title, snippet := item.snippet
    pos := item.pos
    fetch_success := d.fetch_success
    content := d.content
    content_length := d.content_length
    estimated_tokens := d.estimated_tokens
    is_truncated := d.is_truncated
    extraction_method := d.extraction_method
    is_pdf := d.is_pdf
    fetch_error := d.fetch_error
    is_timeout := d.is_timeout
    is_serp_fallback := d.is_serp_fallback }

/-- What `asyncio.gather(..., return_exceptions=True)` hands back for one
fetch task: an exception object (task raised or was cancelled) or the dict
from a completed `_fetch_and_process`. -/
inductive TaskResult where
  | excT (msg : List Char)
  | ran (attempt : FetchAttempt)

/-- The integration loop at lines 280-304: builds the enhanced records for
the fetched URLs (0-based task index `i`) and counts `fetch_success_count`
and `pdf_count` from the raw fetch dicts. -/
def assembleFetched (st : SmartExtractorState) (L T : Nat)
    (tasks : Nat → TaskResult) :
    List UrlItem → Nat → List EnhancedRecord × Nat × Nat
  | [], _ => ([], 0, 0)
  | item :: items, i =>
    let rest := assembleFetched st L T tasks items (i + 1)
    match tasks i with
    | .excT msg =>
      (kissFill { url := item.url, title := item.title, snippet := item.snippet
                  pos := item.pos, fetch_success := false
                  fetch_error := some msg, content := none } :: rest.1,
       rest.2.1, rest.2.2)
    | .ran attempt =>
      let d := fetchAndProcess st L T item attempt
      (kissFill (mergeItemFetch item d) :: rest.1,
       (if d.fetch_success then rest.2.1 + 1 else rest.2.1),
       (if d.is_pdf = some true then rest.2.2 + 1 else rest.2.2))

/-- Per-call counters of a `search_and_fetch` response. -/
structure SFStats where
  total_results : Nat
  auto_fetched : Nat
  fetch_success : Nat
  pdf_count : Nat
deriving DecidableEq

/-- A `search_and_fetch` response (the keys the claims read). -/
structure SFResponse where
  success : Bool
  results : List EnhancedRecord := []
  stats : Option SFStats := none
  error : Option (List Char) := none
  stage : Option (List Char) := none
  mode : Option (List Char) := none
  search_type : Option (List Char) := none
deriving DecidableEq

/-- What the BrightData `search` call returns to `search_and_fetch`. -/
structure SerpOutcome where
  success : Bool
  results : List SerpResult := []
  error : Option (List Char) := none

/-- The light-mode result builder (lines 172-182): snippets only,
`content` is set to `None`. -/
def lightResults (hits : List SerpResult) : List EnhancedRecord :=
  hits.map fun r =>
    { url := r.url, title := r.title, snippet := r.snippet, pos := r.pos
      fetch_success := false
      fetch_reason := some (str "light_mode")
      content := none }

/-- The tail records for hits beyond `auto_fetch_limit` (lines 307-318). -/
def beyondLimitResults (hits : List SerpResult) : List EnhancedRecord :=
  hits.map fun r =>
    { url := r.url, title := r.title, snippet := r.snippet, pos := r.pos
      fetch_success := false
      fetch_reason := some (str "exceeded_auto_fetch_limit")
      content := some r.snippet
      extraction_method := some (str "snippet_only") }

/-- `AutoSearchTool.search_and_fetch`.  `limit` is `auto_fetch_limit`,
`L`/`T` the content caps, `serp` the SERP client's outcome and `tasks` the
per-URL fetch outcomes (0-based in `urls_to_fetch` order). -/
def searchAndFetch (st : SmartExtractorState) (limit L T : Nat)
    (serp : SerpOutcome) (mode : List Char) (tasks : Nat → TaskResult) :
    SFResponse :=
  if ¬serp.success then
    { success := false
      error := some (serp.error.getD (str "Search failed"))
      stage := some (str "search") }
  else
    let hits := serp.results
    if mode = str "light" then
      { success := true
        mode := some (str "light")
        results := lightResults hits
        stats := some { total_results := hits.length, auto_fetched := 0
                        fetch_success := 0, pdf_count := 0 } }
    else
      let urls_to_fetch : List UrlItem :=
        ((hits.take limit).filter (fun r => pyTruthy r.url)).map fun r =>
          { url := r.url, title := r.title, snippet := r.snippet, pos := r.pos }
      let assembled := assembleFetched st L T tasks urls_to_fetch 0
      { success := true
        results := assembled.1 ++ beyondLimitResults (hits.drop limit)
        stats := some { total_results := hits.length
                        auto_fetched := urls_to_fetch.length
                        fetch_success := assembled.2.1
                        pdf_count := assembled.2.2 } }

/-! ## `auto_search` aggregation (`create_auto_search_tool`) -/

/-- How one parallel sub-query's task ends: the task raised (timeout or any
other exception) or returned a `search_and_fetch` response. -/
inductive QueryOutcome where
  | raisedQ (msg : List Char)
  | returnedQ (resp : SFResponse)

/-- One entry of `statistics.query_details`. -/
structure QueryDetail where
  query : List Char
  query_index : Nat
  success : Bool
  results_count : Option Nat := none
  error : Option (List Char) := none
deriving DecidableEq

/-- The top-level `auto_search` response (keys the claims read; single-mode
calls reuse the `search_and_fetch` keys and these stay `none` /
`query_details = none`). -/
structure AutoResponse where
  success : Bool
  search_type : List Char
  results : List EnhancedRecord := []
  parallel_queries : Option (List (List Char)) := none
  total_queries : Option Nat := none
  successful_queries : Option Nat := none
  query_details : Option (List QueryDetail) := none
  error : Option (List Char) := none
deriving DecidableEq

/-- The integration loop over `zip(search_tasks, search_results)`
(lines 657-698): accumulates the successful-query count, the concatenated
results with `search_index` stamped, and the query details. -/
def aggregateParallel (outcomes : Nat → QueryOutcome) :
    List (Nat × List Char) → Nat × List EnhancedRecord × List QueryDetail
  | [] => (0, [], [])
  | (i, q) :: rest =>
    let acc := aggregateParallel outcomes rest
    match outcomes i with
    | .raisedQ msg =>
      (acc.1, acc.2.1,
       { query := q, query_index := i, success := false, error := some msg }
         :: acc.2.2)
    | .returnedQ resp =>
      if resp.success then
        (acc.1 + 1,
         (resp.results.map fun r => { r with search_index := some i }) ++ acc.2.1,
         { query := q, query_index := i, success := true
           results_count := some resp.results.length } :: acc.2.2)
      else
        (acc.1, acc.2.1,
         { query := q, query_index := i, success := false
           error := some (resp.error.getD (str "Search failed")) } :: acc.2.2)

/-- The `search_tasks` list: tags enumerated, keeping only those whose
stripped form is non-empty (line 634-637). -/
def searchTaskList (tags : List (List Char)) : List (Nat × List Char) :=
  (List.range tags.length).zip tags
    |>.filterMap fun p => if pyStrip p.2 = [] then none else some (p.1, pyStrip p.2)

/-- The `auto_search` coroutine: derive `search_tags` from the raw query,
then either aggregate parallel sub-searches (≥ 2 tags; always returns
`success: True`, line 702) or run a single search and stamp
`search_type: single`.  `parallelOutcomes i` is sub-query `i`'s task
outcome; `singleResp` is the `search_and_fetch` response of the
single-query path. -/
def autoSearch (raw : List Char)
    (parallelOutcomes : Nat → QueryOutcome) (singleResp : SFResponse) :
    AutoResponse :=
  let search_tags := autoSearchTags raw
  if 1 < search_tags.length then
    let agg := aggregateParallel parallelOutcomes (searchTaskList search_tags)
    { success := true
      search_type := str "parallel"
      parallel_queries := some search_tags
      results := agg.2.1
      total_queries := some search_tags.length
      successful_queries := some agg.1
      query_details := some agg.2.2 }
  else
    { success := singleResp.success
      search_type := str "single"
      results := singleResp.results
      error := singleResp.error }

/-! ## PDF token truncation (`pdf_parser.py`)

`PDFParser.__init__` sets `max_tokens = 8000`, adjustable through
`set_max_tokens`.  Without tiktoken installed, `count_tokens` is
`len(text) // 4`; we model that estimator.  `_truncate_to_token_limit`
binary-searches the largest prefix within the token limit, backs up to a
sentence/paragraph boundary when one lies in the last 20% of the prefix
(`last_pos > best_length * 0.8`; for the integer magnitudes of interest the
float test agrees with the exact comparison `5 * last_pos > 4 *
best_length`), and appends a 14-character marker. -/

/-- `count_tokens` (character-count estimator branch). -/
def countTokens (text : List Char) : Nat := text.length / 4

/-- The truncation marker appended by `_truncate_to_token_limit`. -/
def pdfMarker : List Char := str "\n\n[内容已截断，原文过长]"

/-- The boundary delimiters tried in order (line 381). -/
def pdfDelims : List (List Char) :=
  [str "\n\n", str "\n", str "。", str ". ", str "！", str "! ", str "？", str "? "]

/-- The binary search of lines 363-375.  `l`/`r` are Python ints (so `r`
may reach -1); each iteration strictly shrinks `r - l`, so fuel
`text.length + 2` always runs the loop to completion. -/
def pdfSearchAux (T : Nat) (text : List Char) :
    Nat → Int → Int → Nat → Nat
  | 0, _, _, best => best
  | fuel + 1, l, r, best =>
    if l ≤ r then
      let mid : Int := (l + r) / 2
      if countTokens (text.take mid.toNat) ≤ T then
        pdfSearchAux T text fuel (mid + 1) r mid.toNat
      else
        pdfSearchAux T text fuel l (mid - 1) best
    else best

/-- `best_length` as computed by the loop. -/
def pdfBestLength (T : Nat) (text : List Char) : Nat :=
  pdfSearchAux T text (text.length + 2) 0 (text.length : Int) 0

/-- The sentence-boundary backup of lines 381-385: the first delimiter whose
last occurrence lies past 80% of `best_length` wins. -/
def pdfBoundary (best : Nat) (truncated : List Char) : List (List Char) → List Char
  | [] => truncated
  | d :: ds =>
    match pyRfind d truncated with
    | some p =>
      if 4 * best < 5 * p then truncated.take (p + d.length)
      else pdfBoundary best truncated ds
    | none => pdfBoundary best truncated ds

/-- `_truncate_to_token_limit`: returns (text, token count, truncated?). -/
def pdfTruncateToTokenLimit (T : Nat) (text : List Char) :
    List Char × Nat × Bool :=
  if text = [] then (text, 0, false)
  else
    let token_count := countTokens text
    if token_count ≤ T then (text, token_count, false)
    else
      let best := pdfBestLength T text
      let truncated := pdfBoundary best (text.take best) pdfDelims
      let final := truncated ++ pdfMarker
      (final, countTokens final, true)

/-! ## Helper lemmas on the string primitives -/

theorem startsWith_append_self (p r : List Char) : startsWith p (p ++ r) = true := by
  induction p with
  | nil => rfl
  | cons c cs ih => simp [startsWith, ih]

theorem splitOnFirst_append_self (pat r : List Char) (h : pat ≠ []) :
    splitOnFirst pat (pat ++ r) = some ([], r) := by
  match pat, h with
  | p :: ps, _ =>
    show splitOnFirst (p :: ps) (p :: (ps ++ r)) = some ([], r)
    rw [splitOnFirst]
    have hs : startsWith (p :: ps) (p :: ps ++ r) = true := startsWith_append_self _ r
    simp only [List.cons_append] at hs
    rw [hs]
    simp [List.drop_left']

theorem startsWith_head_ne {p : Char} {ps : List Char} {c : Char} {cs : List Char}
    (h : p ≠ c) : startsWith (p :: ps) (c :: cs) = false := by
  simp [startsWith, h]

theorem splitOnFirst_marked (pat s r : List Char) (hp : ∃ t, pat = '<' :: t)
    (hs : '<' ∉ s) : splitOnFirst pat (s ++ pat ++ r) = some (s, r) := by
  obtain ⟨t, rfl⟩ := hp
  induction s with
  | nil =>
    simpa using splitOnFirst_append_self ('<' :: t) r (by simp)
  | cons c cs ih =>
    have hc : c ≠ '<' := by
      intro h; exact hs (by simp [h])
    have hcs : '<' ∉ cs := fun h => hs (by simp [h])
    show splitOnFirst ('<' :: t) (c :: (cs ++ ('<' :: t) ++ r)) = some (c :: cs, r)
    rw [splitOnFirst, startsWith_head_ne (fun h => hc h.symm)]
    simp only [Bool.false_eq_true, if_false]
    rw [ih hcs]

theorem splitOnFirst_marked_none (pat s : List Char) (hp : ∃ t, pat = '<' :: t)
    (hs : '<' ∉ s) : splitOnFirst pat s = none := by
  obtain ⟨t, rfl⟩ := hp
  induction s with
  | nil => rfl
  | cons c cs ih =>
    have hc : c ≠ '<' := by
      intro h; exact hs (by simp [h])
    have hcs : '<' ∉ cs := fun h => hs (by simp [h])
    rw [splitOnFirst, startsWith_head_ne (fun h => hc h.symm)]
    simp only [Bool.false_eq_true, if_false]
    rw [ih hcs]

theorem stripFilter_fixed (l : List (List Char))
    (h : ∀ q ∈ l, q ≠ [] ∧ pyStrip q = q) : stripFilter l = l := by
  induction l with
  | nil => rfl
  | cons q qs ih =>
    have hq := h q (by simp)
    rw [stripFilter, List.filterMap_cons]
    rw [hq.2, if_neg hq.1]
    have := ih (fun x hx => h x (List.mem_cons_of_mem _ hx))
    rw [stripFilter] at this
    rw [this]

/-! ## C10: the `auto_search` entry point and multiple tag pairs -/

theorem nextTagCapture_of (s a r c r2 : List Char)
    (h1 : splitOnFirst openTag s = some (a, r))
    (h2 : splitOnFirst closeTag r = some (c, r2)) :
    nextTagCapture s = some (c, r2) := by
  simp only [nextTagCapture, h1, h2]

theorem nextTagCapture_structured (a c r : List Char) (ha : '<' ∉ a)
    (hc : '<' ∉ c) :
    nextTagCapture (a ++ (openTag ++ (c ++ (closeTag ++ r)))) = some (c, r) := by
  have h1 : splitOnFirst openTag (a ++ openTag ++ (c ++ closeTag ++ r))
      = some (a, c ++ closeTag ++ r) :=
    splitOnFirst_marked openTag a _ ⟨str "search>", rfl⟩ ha
  have h2 : splitOnFirst closeTag (c ++ closeTag ++ r) = some (c, r) :=
    splitOnFirst_marked closeTag c r ⟨str "/search>", rfl⟩ hc
  simp only [List.append_assoc] at h1 h2
  exact nextTagCapture_of _ _ _ _ _ h1 h2

/-- C10: the query list of `auto_search` is a function of the first
`<search>` pair's content only: pipe-split of its stripped form.  `a` is
any prefix before the first pair and `b` any suffix after it (in
particular, any number of further `<search>` pairs); neither influences
the result. -/
theorem autoSearch_first_pair_only (a c b : List Char) (ha : '<' ∉ a)
    (hc : '<' ∉ c) :
    autoSearchTags (a ++ (openTag ++ (c ++ (closeTag ++ b))))
      = (if '|' ∈ pyStrip c then stripFilter (splitOnChar '|' (pyStrip c))
         else [pyStrip c]) := by
  rw [autoSearchTags, firstTagContent, nextTagCapture_structured a c b ha hc]

/-- Witness for C10: with raw query `<search>x|y</search><search>z</search>`
the derived queries are exactly x and y; the second pair's z is ignored. -/
theorem autoSearch_first_pair_only_witness :
    autoSearchTags (([] : List Char) ++ (openTag ++ (str "x|y" ++ (closeTag ++ str "<search>z</search>"))))
      = [str "x", str "y"] := by
  rw [autoSearch_first_pair_only ([]) (str "x|y") (str "<search>z</search>")
    (by decide) (by decide)]
  decide

/-! ## C9: the grammar round trip -/

/-- C9 counterexample: the round-trip law fails as stated.  For the
singleton list whose query contains a pipe, formatting returns the bare
query and parsing splits it at the pipe. -/
theorem parse_format_not_id :
    parse_search_queries (format_parallel_search [str "a|b"]) ≠ [str "a|b"] := by
  decide

theorem length_le_format_flatten (qs : List (List Char)) :
    qs.length ≤ ((qs.map (fun q => openTag ++ q ++ closeTag)).flatten).length := by
  induction qs with
  | nil => simp
  | cons q rest ih =>
    simp only [List.map_cons, List.flatten_cons, List.length_append, List.length_cons]
    have h8 : openTag.length = 8 := rfl
    have h9 : closeTag.length = 9 := rfl
    omega

theorem findTagsAux_cons (f : Nat) (s c r2 : List Char)
    (h : nextTagCapture s = some (c, r2)) :
    findTagsAux (f + 1) s = c :: findTagsAux f r2 := by
  simp only [findTagsAux, h]

theorem findTagsAux_nil (f : Nat) (s : List Char)
    (h : nextTagCapture s = none) : findTagsAux (f + 1) s = [] := by
  simp only [findTagsAux, h]

theorem findTagsAux_format (qs : List (List Char)) (h : ∀ q ∈ qs, '<' ∉ q) :
    ∀ fuel, qs.length ≤ fuel →
      findTagsAux fuel ((qs.map (fun q => openTag ++ q ++ closeTag)).flatten) = qs := by
  induction qs with
  | nil =>
    intro fuel _
    cases fuel with
    | zero => rfl
    | succ f => exact findTagsAux_nil f [] (by decide)
  | cons q rest ih =>
    intro fuel hfuel
    cases fuel with
    | zero => simp at hfuel
    | succ f =>
      have hq : '<' ∉ q := h q (by simp)
      have hcap : nextTagCapture
          (((q :: rest).map (fun x => openTag ++ x ++ closeTag)).flatten)
          = some (q, (rest.map (fun x => openTag ++ x ++ closeTag)).flatten) := by
        have := nextTagCapture_structured []
          q ((rest.map (fun x => openTag ++ x ++ closeTag)).flatten) (by simp) hq
        simp only [List.nil_append] at this
        simp only [List.map_cons, List.flatten_cons, List.append_assoc]
        exact this
      rw [findTagsAux_cons f _ _ _ hcap]
      rw [ih (fun x hx => h x (List.mem_cons_of_mem _ hx)) f (by
        simp only [List.length_cons] at hfuel; omega)]

/-- C9 amended: the round trip `parse (format qs) = qs` holds for every
non-empty list of grammar-conforming queries: each query is non-empty,
already stripped, and contains no angle-open character (so no embedded
tag), and a singleton query contains no pipe.  (The counterexample forces
the pipe condition; empty, unstripped or tag-containing queries fail for
the same reason.) -/
theorem parse_format_roundtrip (qs : List (List Char)) (hne : qs ≠ [])
    (hq : ∀ q ∈ qs, q ≠ [] ∧ pyStrip q = q ∧ '<' ∉ q)
    (hsingle : qs.length = 1 → '|' ∉ qs.headI) :
    parse_search_queries (format_parallel_search qs) = qs := by
  by_cases h1 : qs.length = 1
  · match qs, h1 with
    | [q], _ =>
      have hq' := hq q (by simp)
      have hpipe : '|' ∉ q := hsingle rfl
      have hfmt : format_parallel_search [q] = q := by
        simp [format_parallel_search]
      rw [hfmt]
      have htags : findTags q = [] := by
        rw [findTags]
        exact findTagsAux_nil _ q (by
          rw [nextTagCapture,
            splitOnFirst_marked_none openTag q ⟨str "search>", rfl⟩ hq'.2.2])
      simp only [parse_search_queries, htags, ne_eq, not_true_eq_false, if_false,
        if_neg hpipe]
      rw [hq'.2.1]
  · have hfmt : format_parallel_search qs
        = (qs.map (fun q => openTag ++ q ++ closeTag)).flatten := by
      rw [format_parallel_search, if_neg h1]
    rw [hfmt]
    have htags : findTags ((qs.map (fun q => openTag ++ q ++ closeTag)).flatten) = qs := by
      rw [findTags]
      exact findTagsAux_format qs (fun q hx => (hq q hx).2.2) _
        (Nat.le_succ_of_le (length_le_format_flatten qs))
    simp only [parse_search_queries, htags, ne_eq, if_pos hne]
    exact stripFilter_fixed qs (fun q hx => ⟨(hq q hx).1, (hq q hx).2.1⟩)

/-- Witness for the amended C9 round trip at a concrete two-query list. -/
theorem parse_format_roundtrip_witness :
    parse_search_queries (format_parallel_search [str "Tesla stock", str "Apple stock"])
      = [str "Tesla stock", str "Apple stock"] :=
  parse_format_roundtrip [str "Tesla stock", str "Apple stock"]
    (by decide) (by decide) (by decide)

/-! ## C6: the poll schedule -/

/-- Modelled from the spec's words for comparison only: the claimed wait
table as a function of the 1-based attempt number (2 s after attempt 1,
1.5 s after 2-3, 2 s after 4-6, 3 s after 7-10, 4 s after 11-12, 5 s from
13 on), in milliseconds. -/
def specPollSchedule (n : Nat) : Nat :=
  if n = 1 then 2000
  else if n ≤ 3 then 1500
  else if n ≤ 6 then 2000
  else if n ≤ 10 then 3000
  else if n ≤ 12 then 4000
  else 5000

/-- C6 counterexample: a poll sequence whose first seven attempts hit the
5 s per-poll timeout.  The wait recorded after the 7th attempt (index 6)
is 2.0 s, while the claimed schedule prescribes 3.0 s for attempt 7: the
wait does not follow the fixed table on this sequence. -/
theorem pollWait_not_schedule :
    ((pollAsyncResult (fun a => if a < 7 then .pollTimeout else .notReady)
        (fun _ => 0) 30000).2.get? 6 = some 2000)
    ∧ specPollSchedule 7 = 3000 ∧ (2000 : Nat) ≠ 3000 := by
  constructor
  · decide
  · exact ⟨rfl, by decide⟩

/-- C6 amended: (1) the waits after *not-ready (HTTP 202)* responses do
follow the claimed table (the 202 ladder at 1-based attempt `n` equals the
spec table); (2) after a per-poll timeout the wait is instead 2 s / 1.5 s /
2 s (attempt 1 / 2-3 / 4 onwards) and after any other error 1 s, diverging
from the table from attempt 7 on; (3) a run of 20 not-ready attempts stops
with a timeout error after exactly 20 attempts, having slept the scheduled
waits; (4) whenever the elapsed time strictly exceeds the poll budget
(default 30 s) at the head of an attempt, polling ends at once with the
budget-timeout error. -/
theorem pollSchedule_amended :
    (∀ n, 1 ≤ n → waitAfter202 (n - 1) = specPollSchedule n)
    ∧ (∀ a, 3 ≤ a → waitAfterPollTimeout a = 2000)
    ∧ (pollAsyncResult (fun _ => .notReady) (fun _ => 0) 30000
        = (.retriesExhausted,
           [2000, 1500, 1500, 2000, 2000, 2000, 3000, 3000, 3000, 3000,
            4000, 4000, 5000, 5000, 5000, 5000, 5000, 5000, 5000, 5000]))
    ∧ (∀ events elapsedAt budget attempt rem, budget < elapsedAt attempt →
        pollLoop events elapsedAt budget attempt (rem + 1) = (.budgetTimeout, [])) := by
  refine ⟨?_, ?_, by decide, ?_⟩
  · intro n hn
    simp only [waitAfter202, specPollSchedule]
    rcases n with _ | m
    · omega
    · simp only [Nat.add_sub_cancel]
      split_ifs <;> omega
  · intro a ha
    simp only [waitAfterPollTimeout]
    split_ifs <;> omega
  · intro events elapsedAt budget attempt rem h
    simp only [pollLoop, if_pos h]

/-- Witness for the amended C6 parts. -/
theorem pollSchedule_amended_witness :
    waitAfter202 6 = specPollSchedule 7
    ∧ waitAfterPollTimeout 6 = 2000
    ∧ pollLoop (fun _ => .payload) (fun _ => 50) 30 0 20 = (.budgetTimeout, []) :=
  ⟨pollSchedule_amended.1 7 (by decide),
   pollSchedule_amended.2.1 6 (by decide),
   pollSchedule_amended.2.2.2 _ _ _ _ 19 (by decide)⟩

/-! ## C7: SERP result normalization -/

/-- The record built for the organic item at 0-based provider index `i`. -/
def organicRecord (i : Nat) (r : SerpItem) : SerpResult :=
  { pos := i + 1
    title := r.title.getD []
    url := r.link.getD []
    snippet := r.description.getD []
    site := some (r.display_link.getD [])
    date := r.date }

/-- The record built for a news item appended when `sofar` records precede
it. -/
def newsRecord (sofar : Nat) (n : SerpItem) : SerpResult :=
  { pos := sofar + 1
    title := n.title.getD []
    url := n.link.getD []
    snippet := n.description.getD []
    source := some (n.source.getD [])
    date := some (n.date.getD [])
    typeTag := some (str "news") }

theorem processOrganic_length (items : List SerpItem) (j : Nat) :
    (processOrganic items j).length = items.length := by
  induction items generalizing j with
  | nil => rfl
  | cons r rs ih => simp [processOrganic, ih]

theorem processNews_length (items : List SerpItem) (j : Nat) :
    (processNews items j).length = items.length := by
  induction items generalizing j with
  | nil => rfl
  | cons r rs ih => simp [processNews, ih]

theorem processOrganic_get? (items : List SerpItem) (j i : Nat) :
    (processOrganic items j).get? i = (items.get? i).map (organicRecord (j + i)) := by
  induction items generalizing j i with
  | nil => simp [processOrganic]
  | cons r rs ih =>
    cases i with
    | zero => simp [processOrganic, organicRecord]
    | succ i' =>
      simp only [processOrganic, List.get?_cons_succ, ih (j + 1) i']
      have : j + 1 + i' = j + (i' + 1) := by omega
      rw [this]

theorem processNews_get? (items : List SerpItem) (j i : Nat) :
    (processNews items j).get? i = (items.get? i).map (newsRecord (j + i)) := by
  induction items generalizing j i with
  | nil => simp [processNews]
  | cons r rs ih =>
    cases i with
    | zero => simp [processNews, newsRecord]
    | succ i' =>
      simp only [processNews, List.get?_cons_succ, ih (j + 1) i']
      have : j + 1 + i' = j + (i' + 1) := by omega
      rw [this]

/-- C7 counterexample: an organic item with no `link` field is NOT dropped:
it appears in the normalized list as a record with an empty `url`. -/
theorem missing_link_not_dropped :
    processSerpResults { organic := [{ title := some (str "t") }] }
      = [{ pos := 1, title := str "t", url := [], snippet := [],
           site := some [] }] := by
  decide

/-- C7 amended: normalization keeps every organic item (a missing `link`
yields `url = ""` instead of dropping the item); the organic item at
0-based index `i` gets `position = i + 1` in provider order; news items are
appended after all organic items, with `position` continuing the same
sequence and a `type = news` tag. -/
theorem processSerpResults_shape (body : SerpBody) :
    ((processSerpResults body).length
        = body.organic.length + (body.news.getD []).length)
    ∧ (∀ i item, body.organic.get? i = some item →
        (processSerpResults body).get? i = some (organicRecord i item))
    ∧ (∀ j item, (body.news.getD []).get? j = some item →
        (processSerpResults body).get? (body.organic.length + j)
          = some (newsRecord (body.organic.length + j) item)) := by
  refine ⟨?_, ?_, ?_⟩
  · cases hn : body.news with
    | none => simp [processSerpResults, hn, processOrganic_length]
    | some ns =>
      simp [processSerpResults, hn, processOrganic_length, processNews_length]
  · intro i item hi
    have hi' : i < body.organic.length := by
      by_contra h
      rw [List.get?_eq_none.mpr (by omega)] at hi
      exact Option.noConfusion hi
    have horg : (processOrganic body.organic 0).get? i = some (organicRecord i item) := by
      rw [processOrganic_get?, hi]
      simp
    cases hn : body.news with
    | none => simpa [processSerpResults, hn] using horg
    | some ns =>
      rw [processSerpResults, hn]
      rw [List.get?_append (by rw [processOrganic_length]; exact hi')]
      exact horg
  · intro j item hj
    cases hn : body.news with
    | none => simp [hn] at hj
    | some ns =>
      simp only [hn, Option.getD_some] at hj
      rw [processSerpResults, hn]
      rw [List.get?_append_right (by rw [processOrganic_length]; omega)]
      rw [processOrganic_length]
      have : body.organic.length + j - body.organic.length = j := by omega
      rw [this, processNews_get?, hj]
      simp

/-- Witness for the amended C7 at a concrete body: one organic hit with a
link and one news item. -/
theorem processSerpResults_shape_witness :
    ((processSerpResults
        { organic := [{ link := some (str "https://x"), title := some (str "a") }]
          news := some [{ link := some (str "https://n"), title := some (str "b") }] }).length = 2)
    ∧ (processSerpResults
        { organic := [{ link := some (str "https://x"), title := some (str "a") }]
          news := some [{ link := some (str "https://n"), title := some (str "b") }] }).get? 1
        = some (newsRecord 1 { link := some (str "https://n"), title := some (str "b") }) :=
  ⟨(processSerpResults_shape _).1,
   (processSerpResults_shape _).2.2 0 _ rfl⟩

/-! ## C2: failure-memory convergence -/

/-- C2 counterexample: even after three failures of the same host have been
recorded (recording is a no-op: failure learning is forced off in
`SmartContentExtractor.__init__`), the next call for that host still
performs the extraction HTTP request (second component `true`) and does not
return a SERP-fallback outcome — contradicting the claimed convergence. -/
theorem no_failure_memory_convergence :
    (smartExtractContent
        (recordFailure (recordFailure (recordFailure
            (smartExtractorInit true 70)
            (str "https://h/1") (str "TIMEOUT") (str "t"))
            (str "https://h/2") (str "TIMEOUT") (str "t"))
            (str "https://h/3") (str "TIMEOUT") (str "t"))
        (str "https://h/4") (str "snip") (str "title") true false
        (.returned true (some (str "body")) none (some (str "trafilatura"))
          (some false))).2 = true
    ∧ (smartExtractContent
        (recordFailure (recordFailure (recordFailure
            (smartExtractorInit true 70)
            (str "https://h/1") (str "TIMEOUT") (str "t"))
            (str "https://h/2") (str "TIMEOUT") (str "t"))
            (str "https://h/3") (str "TIMEOUT") (str "t"))
        (str "https://h/4") (str "snip") (str "title") true false
        (.returned true (some (str "body")) none (some (str "trafilatura"))
          (some false))).1.is_serp_fallback = none := by
  constructor <;> rfl

/-- C2 amended: failure learning is forcibly disabled by the constructor
regardless of its argument, recording failures never changes the state, and
every `smart_extract_content` call performs the underlying extraction HTTP
request; `is_serp_fallback = true` arises only *after* a failed or raising
extraction when the prepared SERP content is non-empty and fallback is on —
never pre-emptively from the failure memory. -/
theorem smartExtract_no_skip (e : Bool) (thr : Nat)
    (u ft m url snippet title : List Char) (fallback force : Bool)
    (call : ExtractCall) :
    ((smartExtractorInit e thr).enable_failure_learning = false)
    ∧ (recordFailure (smartExtractorInit e thr) u ft m = smartExtractorInit e thr)
    ∧ ((smartExtractContent (smartExtractorInit e thr) url snippet title
          fallback force call).2 = true)
    ∧ ((smartExtractContent (smartExtractorInit e thr) url snippet title
          fallback force call).1.is_serp_fallback = some true
        ↔ (match call with
           | .returned success _ _ _ _ =>
             ¬success ∧ prepareSerpContent title snippet url ≠ [] ∧ fallback
           | .raised _ =>
             prepareSerpContent title snippet url ≠ [] ∧ fallback)) := by
  refine ⟨rfl, rfl, ?_, ?_⟩
  · cases call with
    | returned success content error method it =>
      simp only [smartExtractContent, smartExtractorInit, ite_self,
        Bool.false_eq_true, if_false]
      split_ifs <;> rfl
    | raised msg =>
      simp only [smartExtractContent, smartExtractorInit, ite_self,
        Bool.false_eq_true, if_false]
      split_ifs <;> rfl
  · cases call with
    | returned success content error method it =>
      simp only [smartExtractContent, smartExtractorInit, ite_self,
        Bool.false_eq_true, if_false]
      split_ifs with h
      · simp [h]
      · simp only [iff_false_intro h]
    | raised msg =>
      simp only [smartExtractContent, smartExtractorInit, ite_self,
        Bool.false_eq_true, if_false]
      split_ifs with h
      · simp [h]
      · simp only [iff_false_intro h]

/-- Witness for the amended C2 at a concrete failing extraction with
non-empty SERP content: the call still performs the request and the
fallback flag arises from the failure path. -/
theorem smartExtract_no_skip_witness :
    ((smartExtractContent (smartExtractorInit true 70) (str "https://h/a")
        (str "hello") (str "T") true false
        (.returned false none (some (str "403 Forbidden")) none none)).2 = true)
    ∧ ((smartExtractContent (smartExtractorInit true 70) (str "https://h/a")
        (str "hello") (str "T") true false
        (.returned false none (some (str "403 Forbidden")) none none)).1.is_serp_fallback
        = some true) :=
  ⟨(smartExtract_no_skip true 70 [] [] [] (str "https://h/a") (str "hello")
      (str "T") true false _).2.2.1,
   ((smartExtract_no_skip true 70 [] [] [] (str "https://h/a") (str "hello")
      (str "T") true false
      (.returned false none (some (str "403 Forbidden")) none none)).2.2.2).mpr
     (by refine ⟨by simp, ?_, rfl⟩; decide)⟩

/-! ## C3: light mode -/

/-- C3 counterexample: in light mode the builder stores `content: None`
(line 181), not the snippet, so a hit with a non-empty snippet yields a
record whose content differs from `some snippet`. -/
theorem light_content_is_none :
    ((searchAndFetch (smartExtractorInit true 70) 3 10000 3000
        { success := true
          results := [{ pos := 1, title := str "T", url := str "u",
                        snippet := str "hello" }] }
        (str "light") (fun _ => .excT [])).results.headI.content = none)
    ∧ ((searchAndFetch (smartExtractorInit true 70) 3 10000 3000
        { success := true
          results := [{ pos := 1, title := str "T", url := str "u",
                        snippet := str "hello" }] }
        (str "light") (fun _ => .excT [])).results.headI.snippet = str "hello")
    ∧ (none : Option (List Char)) ≠ some (str "hello") := by
  refine ⟨rfl, rfl, by decide⟩

/-- C3 amended: for a successful SERP query in light mode the response has
exactly the hits' records in SERP order, each with `fetch_success = false`,
`fetch_reason = "light_mode"` and `content = None` (not the snippet; the
snippet sits in its own field), and `statistics.auto_fetched = 0`. -/
theorem searchAndFetch_light (st : SmartExtractorState) (limit L T : Nat)
    (hits : List SerpResult) (err : Option (List Char))
    (tasks : Nat → TaskResult) :
    (searchAndFetch st limit L T { success := true, results := hits, error := err }
        (str "light") tasks
      = { success := true
          mode := some (str "light")
          results := lightResults hits
          stats := some { total_results := hits.length, auto_fetched := 0
                          fetch_success := 0, pdf_count := 0 } })
    ∧ (lightResults hits).length = hits.length
    ∧ (∀ i hit, hits.get? i = some hit →
        (lightResults hits).get? i
          = some { url := hit.url, title := hit.title, snippet := hit.snippet
                   pos := hit.pos, fetch_success := false
                   fetch_reason := some (str "light_mode"), content := none }) := by
  refine ⟨?_, by simp [lightResults], ?_⟩
  · rw [searchAndFetch]
    simp
  · intro i hit h
    rw [lightResults, List.get?_map, h]
    rfl

/-- Witness for the amended C3 at a concrete three-hit SERP response. -/
theorem searchAndFetch_light_witness :
    (searchAndFetch (smartExtractorInit true 70) 3 10000 3000
        { success := true
          results := [{ pos := 1, url := str "a", snippet := str "s1" },
                      { pos := 2, url := str "b", snippet := str "s2" },
                      { pos := 3, url := str "c", snippet := str "s3" }] }
        (str "light") (fun _ => .excT [])).stats
      = some { total_results := 3, auto_fetched := 0, fetch_success := 0,
               pdf_count := 0 } := by
  rw [(searchAndFetch_light _ _ _ _ _ _ _).1]
  rfl

/-! ## Membership structure of full-mode results (helper lemmas) -/

theorem kissFill_keeps (r : EnhancedRecord) :
    (kissFill r).is_truncated = r.is_truncated
    ∧ (kissFill r).content_length = r.content_length
    ∧ (kissFill r).estimated_tokens = r.estimated_tokens
    ∧ (kissFill r).fetch_success = r.fetch_success
    ∧ (kissFill r).snippet = r.snippet := by
  rw [kissFill]; split_ifs <;> simp

theorem kissFill_content_prop (r : EnhancedRecord)
    (h : r.fetch_success = false → r.content = none ∨ r.content = some r.snippet) :
    (kissFill r).fetch_success = false →
      (kissFill r).content = none ∨ (kissFill r).content = some (kissFill r).snippet := by
  rw [kissFill]
  split_ifs with hc
  · intro _; right; rfl
  · exact h

theorem assembleFetched_mem (st : SmartExtractorState) (L T : Nat)
    (tasks : Nat → TaskResult) :
    ∀ (items : List UrlItem) (i : Nat) (r : EnhancedRecord),
      r ∈ (assembleFetched st L T tasks items i).1 →
      (∃ item msg, r = kissFill
          { url := UrlItem.url item, title := item.title, snippet := item.snippet
            pos := item.pos, fetch_success := false
            fetch_error := some msg, content := none })
      ∨ (∃ item a, r = kissFill (mergeItemFetch item (fetchAndProcess st L T item a))) := by
  intro items
  induction items with
  | nil => intro i r h; simp [assembleFetched] at h
  | cons item rest ih =>
    intro i r h
    rw [assembleFetched] at h
    rcases ht : tasks i with msg | a <;> rw [ht] at h <;>
      rcases List.mem_cons.mp h with h1 | h1
    · exact Or.inl ⟨item, msg, h1⟩
    · exact ih (i + 1) r h1
    · exact Or.inr ⟨item, a, h1⟩
    · exact ih (i + 1) r h1

/-- Every record of a `search_and_fetch` response comes from one of: the
light-mode builder, an exception-valued fetch task, a completed
`_fetch_and_process`, or the beyond-`auto_fetch_limit` tail. -/
theorem results_mem_cases (st : SmartExtractorState) (limit L T : Nat)
    (serp : SerpOutcome) (mode : List Char) (tasks : Nat → TaskResult)
    (r : EnhancedRecord)
    (h : r ∈ (searchAndFetch st limit L T serp mode tasks).results) :
    (∃ hit : SerpResult, r =
        { url := hit.url, title := hit.title, snippet := hit.snippet
          pos := hit.pos, fetch_success := false
          fetch_reason := some (str "light_mode"), content := none })
    ∨ (∃ item msg, r = kissFill
        { url := UrlItem.url item, title := item.title, snippet := item.snippet
          pos := item.pos, fetch_success := false
          fetch_error := some msg, content := none })
    ∨ (∃ item a, r = kissFill (mergeItemFetch item (fetchAndProcess st L T item a)))
    ∨ (∃ hit : SerpResult, r =
        { url := hit.url, title := hit.title, snippet := hit.snippet
          pos := hit.pos, fetch_success := false
          fetch_reason := some (str "exceeded_auto_fetch_limit")
          content := some hit.snippet
          extraction_method := some (str "snippet_only") }) := by
  rw [searchAndFetch] at h
  by_cases hs : serp.success
  · simp only [hs, not_true_eq_false, if_false] at h
    by_cases hm : mode = str "light"
    · rw [if_pos hm] at h
      simp only [SFResponse.results] at h
      rw [lightResults] at h
      obtain ⟨hit, _, rfl⟩ := List.mem_map.mp h
      exact Or.inl ⟨hit, rfl⟩
    · rw [if_neg hm] at h
      simp only [SFResponse.results] at h
      rcases List.mem_append.mp h with h1 | h1
      · rcases assembleFetched_mem st L T tasks _ 0 r h1 with h2 | h2
        · exact Or.inr (Or.inl h2)
        · exact Or.inr (Or.inr (Or.inl h2))
      · rw [beyondLimitResults] at h1
        obtain ⟨hit, _, rfl⟩ := List.mem_map.mp h1
        exact Or.inr (Or.inr (Or.inr ⟨hit, rfl⟩))
  · simp only [hs, not_false_eq_true, if_true] at h
    simp at h

/-! ## C8: failed records carry no partial content -/

theorem fetchAndProcess_content (st : SmartExtractorState) (L T : Nat)
    (item : UrlItem) (a : FetchAttempt) :
    (fetchAndProcess st L T item a).fetch_success = false →
      (fetchAndProcess st L T item a).content = none
      ∨ (fetchAndProcess st L T item a).content = some item.snippet := by
  cases a with
  | timedOut => intro _; right; rfl
  | raisedF msg => intro _; left; rfl
  | completed call =>
    simp only [fetchAndProcess]
    split_ifs with h h2
    · intro hf; simp at hf
    · intro hf; simp at hf
    · intro _; left; rfl

/-- C8: in every response record with `fetch_success = false`, the content
is either absent (`None`) or exactly the SERP snippet of that hit — never
partial extraction output.  (Light mode stores `None`; a failed
`_fetch_and_process` stores `None` or the snippet; the KISS fill can only
substitute the record's own snippet; tail records carry their snippet.) -/
theorem failed_record_content (st : SmartExtractorState) (limit L T : Nat)
    (serp : SerpOutcome) (mode : List Char) (tasks : Nat → TaskResult) :
    ∀ r ∈ (searchAndFetch st limit L T serp mode tasks).results,
      r.fetch_success = false →
        r.content = none ∨ r.content = some r.snippet := by
  intro r hmem
  rcases results_mem_cases st limit L T serp mode tasks r hmem with
    ⟨hit, rfl⟩ | ⟨item, msg, rfl⟩ | ⟨item, a, rfl⟩ | ⟨hit, rfl⟩
  · intro _; left; rfl
  · exact kissFill_content_prop _ (fun _ => Or.inl rfl)
  · refine kissFill_content_prop _ (fun hf => ?_)
    have := fetchAndProcess_content st L T item a (by
      simpa [mergeItemFetch] using hf)
    simpa [mergeItemFetch] using this
  · intro _; right; rfl

/-- Witness for C8: a light-mode record with `fetch_success = false` and
`content = None`. -/
theorem failed_record_content_witness :
    ({ url := str "a", snippet := str "s1", pos := 1
       fetch_success := false, fetch_reason := some (str "light_mode")
       content := none } : EnhancedRecord).content = none
    ∨ ({ url := str "a", snippet := str "s1", pos := 1
         fetch_success := false, fetch_reason := some (str "light_mode")
         content := none } : EnhancedRecord).content
        = some ({ url := str "a", snippet := str "s1", pos := 1
                  fetch_success := false, fetch_reason := some (str "light_mode")
                  content := none } : EnhancedRecord).snippet :=
  failed_record_content (smartExtractorInit true 70) 3 10000 3000
    { success := true
      results := [{ pos := 1, url := str "a", snippet := str "s1" }] }
    (str "light") (fun _ => .excT []) _ (by decide) rfl

/-! ## C4: truncated records versus the configured caps -/

/-- C4 counterexample: with the default caps (10000 chars, 3000 tokens), an
extraction of 12100 characters is token-capped to 12000 characters plus the
9-character marker: the resulting record has `is_truncated = true` but
`content_length = 12009 > max_content_length = 10000`. -/
theorem truncated_record_exceeds_cap :
    ((searchAndFetch (smartExtractorInit true 70) 3 10000 3000
        { success := true
          results := [{ pos := 1, url := str "u", snippet := str "s",
                        title := str "t" }] }
        (str "full")
        (fun _ => .ran (.completed (.returned true
          (some (List.replicate 12100 'a')) none (some (str "trafilatura"))
          (some false))))).results.headI.is_truncated = some true)
    ∧ ((searchAndFetch (smartExtractorInit true 70) 3 10000 3000
        { success := true
          results := [{ pos := 1, url := str "u", snippet := str "s",
                        title := str "t" }] }
        (str "full")
        (fun _ => .ran (.completed (.returned true
          (some (List.replicate 12100 'a')) none (some (str "trafilatura"))
          (some false))))).results.headI.content_length = some 12009)
    ∧ ¬((12009 : Nat) ≤ 10000) := by
  have key : ∀ C : List Char, C.length = 12100 →
      (searchAndFetch (smartExtractorInit true 70) 3 10000 3000
        { success := true
          results := [{ pos := 1, url := str "u", snippet := str "s",
                        title := str "t" }] }
        (str "full")
        (fun _ => .ran (.completed (.returned true (some C) none
          (some (str "trafilatura")) (some false))))).results
      = [{ url := str "u", title := str "t", snippet := str "s", pos := 1
           fetch_success := true
           content := some (C.take 12000 ++ ocMarker)
           content_length := some 12009
           estimated_tokens := some 3000
           is_truncated := some true
           extraction_method := some (str "trafilatura")
           is_pdf := some false
           is_serp_fallback := none }] := by
    intro C hC
    have hm : ocMarker.length = 9 := rfl
    have hcap : capContent 10000 3000 C false = (C.take 12000 ++ ocMarker, true, 3000) := by
      rw [capContent, if_pos (by omega)]
    have hlen : (C.take 12000 ++ ocMarker).length = 12009 := by
      rw [List.length_append, List.length_take, hC, hm]
      omega
    have her : smartExtractContent (smartExtractorInit true 70) (str "u") (str "s")
        (str "t") true false
        (.returned true (some C) none (some (str "trafilatura")) (some false))
        = ({ success := true, content := some C
             method := some (str "trafilatura"), is_truncated := some false
             error := none, intelligent_extraction := some true }, true) := by
      simp [smartExtractContent, smartExtractorInit]
    have hd : fetchAndProcess (smartExtractorInit true 70) 10000 3000
        { url := str "u", title := str "t", snippet := str "s", pos := 1 }
        (.completed (.returned true (some C) none
          (some (str "trafilatura")) (some false)))
        = { fetch_success := true
            content := some (C.take 12000 ++ ocMarker)
            content_length := some 12009
            estimated_tokens := some 3000
            is_truncated := some true
            extraction_method := some (str "trafilatura")
            is_pdf := some false
            is_serp_fallback := none } := by
      simp only [fetchAndProcess, her, Option.getD_some]
      rw [hcap]
      simp only [hlen]
      have hpd : (decide ((some (str "trafilatura") : Option (List Char))
          = some (str "pdf_parser"))) = false := by decide
      have hsf : ((none : Option Bool) = some true) = False := by simp
      simp only [hpd, hsf, if_false, if_true]
    rw [searchAndFetch]
    rw [if_neg (by decide)]
    rw [if_neg (by decide)]
    simp [hd, assembleFetched, mergeItemFetch, kissFill, beyondLimitResults,
      pyTruthy, List.filter]
  rw [key (List.replicate 12100 'a') (List.length_replicate 12100 'a')]
  exact ⟨rfl, rfl, by norm_num⟩

theorem capContent_bounds (c : List Char) (inc : Bool) :
    (capContent 10000 3000 c inc).1.length ≤ 12009
    ∧ (capContent 10000 3000 c inc).2.2 ≤ 3000 := by
  have hm : ocMarker.length = 9 := rfl
  rw [capContent]
  split_ifs with h1 h2
  · simp only [List.length_append, List.length_take, hm]
    omega
  · simp only [List.length_append, List.length_take, hm]
    omega
  · simp only []
    omega

theorem fetchAndProcess_bounds (st : SmartExtractorState) (item : UrlItem)
    (a : FetchAttempt) :
    (fetchAndProcess st 10000 3000 item a).content_length.getD 0 ≤ 12009
    ∧ (fetchAndProcess st 10000 3000 item a).estimated_tokens.getD 0 ≤ 3000 := by
  cases a with
  | timedOut => exact ⟨by simp [fetchAndProcess], by simp [fetchAndProcess]⟩
  | raisedF msg => exact ⟨by simp [fetchAndProcess], by simp [fetchAndProcess]⟩
  | completed call =>
    simp only [fetchAndProcess]
    split_ifs with h h2
    · simp only [Option.getD_some]
      exact capContent_bounds _ _
    · simp only [Option.getD_some]
      exact capContent_bounds _ _
    · simp

/-- C4 amended: with the default caps, a record with `is_truncated = true`
satisfies `content_length ≤ 12009` (that is, `max_content_tokens *
char_to_token_ratio + len(marker)`, NOT `max_content_length = 10000`, which
the token-capped branch exceeds) and `estimated_tokens ≤ 3000`. -/
theorem result_trunc_bounds (st : SmartExtractorState) (limit : Nat)
    (serp : SerpOutcome) (mode : List Char) (tasks : Nat → TaskResult) :
    ∀ r ∈ (searchAndFetch st limit 10000 3000 serp mode tasks).results,
      r.is_truncated = some true →
        r.content_length.getD 0 ≤ 12009 ∧ r.estimated_tokens.getD 0 ≤ 3000 := by
  intro r hmem htr
  rcases results_mem_cases st limit 10000 3000 serp mode tasks r hmem with
    ⟨hit, rfl⟩ | ⟨item, msg, rfl⟩ | ⟨item, a, rfl⟩ | ⟨hit, rfl⟩
  · simp at htr
  · rw [(kissFill_keeps _).1] at htr
    simp at htr
  · rw [(kissFill_keeps _).2.1, (kissFill_keeps _).2.2.1]
    simp only [mergeItemFetch]
    exact fetchAndProcess_bounds st item a
  · simp at htr

/-- Witness for the amended C4: a record whose `is_truncated` flag comes
from the extractor (content already within caps) satisfies the bounds. -/
theorem result_trunc_bounds_witness :
    ({ url := str "u", title := str "t", snippet := str "s", pos := 1
       fetch_success := true, content := some (str "hello")
       content_length := some 5, estimated_tokens := some 1
       is_truncated := some true
       extraction_method := some (str "trafilatura")
       is_pdf := some false } : EnhancedRecord).content_length.getD 0 ≤ 12009
    ∧ ({ url := str "u", title := str "t", snippet := str "s", pos := 1
         fetch_success := true, content := some (str "hello")
         content_length := some 5, estimated_tokens := some 1
         is_truncated := some true
         extraction_method := some (str "trafilatura")
         is_pdf := some false } : EnhancedRecord).estimated_tokens.getD 0 ≤ 3000 :=
  result_trunc_bounds (smartExtractorInit true 70) 3
    { success := true
      results := [{ pos := 1, url := str "u", snippet := str "s",
                    title := str "t" }] }
    (str "full")
    (fun _ => .ran (.completed (.returned true (some (str "hello")) none
      (some (str "trafilatura")) (some true)))) _
    (by decide) (by decide)

/-! ## C5: truncation idempotence -/

/-- C5 counterexample: the PDF token truncation is not idempotent.  With
`set_max_tokens(16)` and a 100-character text whose only newline sits at
position 64, the first pass truncates to the newline (65 chars) and appends
the 14-char marker (79 chars, 19 estimated tokens > 16); the second pass
truncates again and produces a different, longer string (the marker's own
leading newlines now count as a sentence boundary). -/
theorem pdfTruncate_not_idempotent :
    (pdfTruncateToTokenLimit 16
        (pdfTruncateToTokenLimit 16
          (List.replicate 64 'a' ++ '\n' :: List.replicate 35 'a')).1).1
      ≠ (pdfTruncateToTokenLimit 16
          (List.replicate 64 'a' ++ '\n' :: List.replicate 35 'a')).1 := by
  decide

/-- C5 amended: the orchestrator's char/token capping is idempotent — a
content within both caps is returned unchanged with its flag untouched, and
(whenever `max_content_length + len(marker) ≤ 4 * max_content_tokens`,
which holds for the defaults 10000/3000) applying the cap twice equals
applying it once.  The PDF token truncation is a no-op on text within the
token limit, but is NOT idempotent in general (see the counterexample): the
appended marker can push the token estimate back over the limit. -/
theorem take_append_of_length (l₁ l₂ : List Char) (n : Nat) (h : l₁.length = n) :
    (l₁ ++ l₂).take n = l₁ := by
  subst h
  exact List.take_left _ _

theorem truncation_idem_amended :
    (∀ (L T : Nat) (c : List Char) (inc : Bool),
        c.length ≤ 4 * T → c.length ≤ L →
          capContent L T c inc = (c, inc, c.length / 4))
    ∧ (∀ (L T : Nat) (c : List Char) (inc : Bool),
        L + ocMarker.length ≤ 4 * T →
          capContent L T (capContent L T c inc).1 (capContent L T c inc).2.1
            = capContent L T c inc)
    ∧ (∀ (T : Nat) (text : List Char), countTokens text ≤ T →
        pdfTruncateToTokenLimit T text = (text, countTokens text, false)) := by
  have hm : ocMarker.length = 9 := rfl
  refine ⟨?_, ?_, ?_⟩
  · intro L T c inc h1 h2
    rw [capContent, if_neg (by omega), if_neg (by omega)]
  · intro L T c inc h
    rw [hm] at h
    by_cases h1 : 4 * T < c.length
    · have e1 : capContent L T c inc = (c.take (4 * T) ++ ocMarker, true, T) := by
        rw [capContent, if_pos h1]
      rw [e1]
      have hlen : (c.take (4 * T) ++ ocMarker).length = 4 * T + 9 := by
        rw [List.length_append, List.length_take, hm]
        omega
      have htake : ((c.take (4 * T)) ++ ocMarker).take (4 * T) = c.take (4 * T) :=
        take_append_of_length _ _ _ (by rw [List.length_take]; omega)
      rw [capContent, if_pos (by rw [hlen]; omega), htake]
    · by_cases h2 : L < c.length
      · have e1 : capContent L T c inc
            = (c.take L ++ ocMarker, true, (c.take L ++ ocMarker).length / 4) := by
          rw [capContent, if_neg h1, if_pos h2]
        rw [e1]
        have hlen : (c.take L ++ ocMarker).length = L + 9 := by
          rw [List.length_append, List.length_take, hm]
          omega
        have htake : ((c.take L) ++ ocMarker).take L = c.take L :=
          take_append_of_length _ _ _ (by rw [List.length_take]; omega)
        rw [capContent, if_neg (by rw [hlen]; omega), if_pos (by rw [hlen]; omega),
          htake]
      · have e1 : capContent L T c inc = (c, inc, c.length / 4) := by
          rw [capContent, if_neg h1, if_neg h2]
        rw [e1, capContent, if_neg h1, if_neg h2]
  · intro T text h
    by_cases he : text = []
    · subst he; rfl
    · rw [pdfTruncateToTokenLimit, if_neg he, if_pos h]

/-- Witness for the amended C5 at the default configuration. -/
theorem truncation_idem_amended_witness :
    (capContent 10000 3000 (str "short body") false = (str "short body", false, 2))
    ∧ (capContent 10000 3000
          (capContent 10000 3000 (List.replicate 12100 'a') false).1
          (capContent 10000 3000 (List.replicate 12100 'a') false).2.1
        = capContent 10000 3000 (List.replicate 12100 'a') false)
    ∧ (pdfTruncateToTokenLimit 8000 (str "tiny pdf text")
        = (str "tiny pdf text", 3, false)) :=
  ⟨truncation_idem_amended.1 10000 3000 (str "short body") false
      (by decide) (by decide),
   truncation_idem_amended.2.1 10000 3000 (List.replicate 12100 'a') false
      (by decide),
   truncation_idem_amended.2.2 8000 (str "tiny pdf text") (by decide)⟩

/-! ## C1: top-level success versus failing queries -/

/-- The `query_details` entry the aggregation loop builds for sub-query
`i` with query text `q`. -/
def queryDetailOf (i : Nat) (q : List Char) : QueryOutcome → QueryDetail
  | .raisedQ msg =>
    { query := q, query_index := i, success := false, error := some msg }
  | .returnedQ r =>
    if r.success then
      { query := q, query_index := i, success := true
        results_count := some r.results.length }
    else
      { query := q, query_index := i, success := false
        error := some (r.error.getD (str "Search failed")) }

theorem aggregateParallel_details (outcomes : Nat → QueryOutcome) :
    ∀ l : List (Nat × List Char),
      (aggregateParallel outcomes l).2.2
        = l.map (fun p => queryDetailOf p.1 p.2 (outcomes p.1)) := by
  intro l
  induction l with
  | nil => rfl
  | cons p rest ih =>
    obtain ⟨i, q⟩ := p
    rcases ho : outcomes i with msg | r
    · simp [aggregateParallel, ho, queryDetailOf, ih]
    · by_cases hs : r.success
      · simp [aggregateParallel, ho, queryDetailOf, hs, ih]
      · simp [aggregateParallel, ho, queryDetailOf, hs, ih]

/-- C1 counterexample: a parallel call (`<search>a|b</search>`) whose every
SERP query fails still returns top-level `success = true` (line 702); no
SERP_UNAVAILABLE error kind exists anywhere in the code.  The failures are
only visible inside `statistics.query_details`. -/
theorem parallel_all_fail_success_true :
    ((autoSearch (str "<search>a|b</search>")
        (fun _ => .returnedQ { success := false, error := some (str "Timeout") })
        { success := true }).success = true)
    ∧ ((autoSearch (str "<search>a|b</search>")
        (fun _ => .returnedQ { success := false, error := some (str "Timeout") })
        { success := true }).query_details
        = some [{ query := str "a", query_index := 0, success := false
                  error := some (str "Timeout") },
                { query := str "b", query_index := 1, success := false
                  error := some (str "Timeout") }]) := by
  exact ⟨by decide, by decide⟩

/-- C1 amended: a parallel call always returns top-level `success = true`
regardless of how many sub-queries failed, and `statistics.query_details`
records one entry per sub-query (a failure entry, with the error string,
for each failed one).  Only the single-query path propagates a SERP failure
as top-level `success = false`, carrying the SERP client's raw error string
— there is no SERP_UNAVAILABLE error kind. -/
theorem autoSearch_success_amended (raw : List Char)
    (po : Nat → QueryOutcome) (sr : SFResponse) :
    (1 < (autoSearchTags raw).length →
      (autoSearch raw po sr).success = true
      ∧ (autoSearch raw po sr).query_details
          = some ((searchTaskList (autoSearchTags raw)).map
              (fun p => queryDetailOf p.1 p.2 (po p.1))))
    ∧ (¬ 1 < (autoSearchTags raw).length →
      (autoSearch raw po sr).success = sr.success
      ∧ (autoSearch raw po sr).error = sr.error
      ∧ (autoSearch raw po sr).search_type = str "single") := by
  constructor
  · intro h
    simp only [autoSearch]
    rw [if_pos h]
    exact ⟨rfl, by rw [aggregateParallel_details]⟩
  · intro h
    simp only [autoSearch]
    rw [if_neg h]
    exact ⟨rfl, rfl, rfl⟩

/-- Witness for the amended C1: a two-query parallel call with one success
and one failure keeps `success = true`; a bare single query propagates the
failing search response. -/
theorem autoSearch_success_amended_witness :
    ((autoSearch (str "<search>a|b</search>")
        (fun i => if i = 0 then .returnedQ { success := true }
                  else .raisedQ (str "boom"))
        { success := true }).success = true)
    ∧ ((autoSearch (str "plain query")
        (fun _ => .raisedQ (str "unused"))
        { success := false, error := some (str "Network error") }).success
        = false) :=
  ⟨((autoSearch_success_amended (str "<search>a|b</search>")
      (fun i => if i = 0 then .returnedQ { success := true }
                else .raisedQ (str "boom"))
      { success := true }).1 (by decide)).1,
   by
    rw [((autoSearch_success_amended (str "plain query")
      (fun _ => .raisedQ (str "unused"))
      { success := false, error := some (str "Network error") }).2 (by decide)).1]⟩

end SFE
